import Mathlib

/-!
Shallow embedding of the commute-map front end (React single-page app).
Sources embedded:
- Carousel component (cityNames table, displayed-cities computation);
- ThumbnailGrid component (grid labels);
- Home component (cityNames, cityDetails, city-list fetch, handleSelect,
  AnimatePresence onExitComplete, overlay rendering);
- MapView component (route-parameter guard);
- App component (router: a single wildcard route rendering Home).
-/

namespace CommuteMap

/-- The cityNames registry. The same literal table appears in Carousel,
ThumbnailGrid and Home; all three copies are identical, so one definition
embeds them. -/
def cityNames : List (String × String) :=
  [("leeds1", "Leeds – Train Station"),
   ("leeds2", "Leeds – Beeston"),
   ("leeds3", "Leeds – Stourton"),
   ("leeds4", "Leeds – Burley"),
   ("london1", "London – Charing Cross"),
   ("london2", "London – Islington"),
   ("london3", "London – Hackney"),
   ("london4", "London – Islington"),
   ("london5", "London – Canning Town"),
   ("london6", "London – Seven Sisters"),
   ("london7", "London – Willesden")]

/-- The cityDetails registry from Home. -/
def cityDetails : List (String × String) :=
  [("leeds1", "Specific text 1"),
   ("leeds2", "Specific text 2"),
   ("leeds3", "Specific text 3"),
   ("leeds4", "Specific text 4"),
   ("london1", "Specific text 5"),
   ("london2", "Specific text 6"),
   ("london3", "Specific text 7"),
   ("london4", "Specific text 8"),
   ("london5", "Specific text 9"),
   ("london6", "Specific text 10"),
   ("london7", "Specific text 11")]

/-- JavaScript object property lookup `table[key]`: the value when the key is
present, undefined (none) otherwise. -/
def lookup (table : List (String × String)) (key : String) : Option String :=
  (table.find? (fun p => p.1 == key)).map (fun p => p.2)

/-- JavaScript `v || dflt` for a possibly-undefined string `v`: undefined and
the empty string are falsy and select the default. -/
def jsOrElse (v : Option String) (dflt : String) : String :=
  match v with
  | some s => if s = "" then dflt else s
  | none => dflt

/-- Label shown by the hover overlay in ThumbnailGrid:
`cityNames[city] || city`. -/
def gridLabel (city : String) : String :=
  jsOrElse (lookup cityNames city) city

/-- Label shown by the hover overlay of a Carousel entry:
`cityNames[city] || city` (Carousel carries its own identical copy of the
table). -/
def carouselLabel (city : String) : String :=
  jsOrElse (lookup cityNames city) city

/-- Text rendered by the overlay heading in Home:
`<h2>{cityNames[selectedCity]}</h2>` — no fallback; an undefined lookup
renders as nothing, i.e. the empty text. -/
def overlayTitleText (city : String) : String :=
  (lookup cityNames city).getD ""

/-- Text rendered by the overlay description paragraph in Home:
`cityDetails[selectedCity] || "No detailed information available."`. -/
def overlayDescription (city : String) : String :=
  jsOrElse (lookup cityDetails city) "No detailed information available."

/-- The hard-coded fallback identifiers spread after `cities` in Carousel. -/
def fallbackCities : List String :=
  ["leeds1", "leeds2", "london1", "london2"]

/-- Insertion-order de-duplication with an accumulator of already-seen keys:
the semantics of the JavaScript expression spreading a list through
`new Set`, which keeps the first occurrence of each element. -/
def dedupKeepFirstAux (seen : List String) : List String → List String
  | [] => []
  | x :: xs =>
    if x ∈ seen then dedupKeepFirstAux seen xs
    else x :: dedupKeepFirstAux (x :: seen) xs

/-- `[...new Set(l)]`: de-duplicate keeping first occurrences. -/
def dedupKeepFirst (l : List String) : List String :=
  dedupKeepFirstAux [] l

/-- The displayed-cities computation of Carousel, line by line:
`allCities = [...cities, "leeds1", "leeds2", "london1", "london2"]`;
`filteredCities = allCities.filter(city => city !== selectedCity)`;
`finalCities = [...new Set(filteredCities)].slice(0, 8)`. -/
def carouselDisplayed (cities : List String) (selectedCity : String) : List String :=
  let allCities := cities ++ fallbackCities
  let filteredCities := allCities.filter (fun city => city ≠ selectedCity)
  let finalCities := (dedupKeepFirst filteredCities).take 8
  finalCities

/-- The Carousel subset as the spec words it: concatenate the city list with
the fallback list, remove every entry equal to the selected city,
de-duplicate keeping first occurrences, truncate to the first 8 entries. -/
def carouselSpecSubset (cities : List String) (selectedCity : String) : List String :=
  List.take 8
    (dedupKeepFirst
      (List.filter (fun city => city ≠ selectedCity) (cities ++ fallbackCities)))

/-! Home state machine.  Home owns `cities`, `selectedCity`, `isMapVisible`
and `isClosing` via useState; `navigate` mutates the router, modelled by a
`route` field of the same state. -/

structure HomeState where
  cities : List String
  selectedCity : Option String
  isMapVisible : Bool
  isClosing : Bool
  route : String
  deriving Repr, DecidableEq

/-- The state Home mounts with at a given URL: useState([]) for cities,
useState(null) for selectedCity, useState(false) twice.  Home never reads the
route, so every field except `route` is independent of it. -/
def initialHomeState (route : String) : HomeState :=
  { cities := [], selectedCity := none, isMapVisible := false,
    isClosing := false, route := route }

/-- The handleSelect callback of Home: if the clicked city is the selected
one, start closing (isClosing true, isMapVisible false); otherwise select it,
show the map, reset isClosing, and navigate to the per-city path. -/
def handleSelect (s : HomeState) (city : String) : HomeState :=
  if s.selectedCity = some city then
    { s with isClosing := true, isMapVisible := false }
  else
    { s with selectedCity := some city, isMapVisible := true,
             isClosing := false, route := "/map/" ++ city }

/-- The onExitComplete callback of the AnimatePresence wrapper in Home: runs
when the exit animation finishes; if isClosing, clear the selection and
navigate to the root route. -/
def onExitComplete (s : HomeState) : HomeState :=
  if s.isClosing then { s with selectedCity := none, route := "/" } else s

/-- Whether the outer overlay frame is mounted: Home renders the
AnimatePresence block under the guard `selectedCity && ...`. -/
def overlayFrameMounted (s : HomeState) : Bool :=
  s.selectedCity.isSome

/-- The React key of the inner overlay contents, when rendered: the inner
motion.div is rendered under `isMapVisible && selectedCity` with
`key={selectedCity}`, so its identity follows the selected city. -/
def overlayContentKey (s : HomeState) : Option String :=
  if s.isMapVisible then s.selectedCity else none

/-! The one-shot city-list fetch in Home.  The fetch resolves to a network
error, or to a response with an ok flag and a body; reading the body as JSON
either fails (malformed) or yields a document whose `cities` field is either
absent/falsy or a list of identifiers. -/

inductive BodyRead where
  | malformed : BodyRead
  | json (citiesField : Option (List String)) : BodyRead
  deriving Repr, DecidableEq

inductive FetchOutcome where
  | networkError : FetchOutcome
  | response (ok : Bool) (body : BodyRead) : FetchOutcome
  deriving Repr, DecidableEq

inductive FetchEffect where
  | logError : FetchEffect
  | setCities (cities : List String) : FetchEffect
  deriving Repr, DecidableEq

/-- The promise chain of the fetch effect in Home: a network error rejects
into the catch (console.error); a non-ok response throws into the catch;
a body that fails to parse as JSON rejects into the catch; otherwise
`setCities(data.cities || [])`. -/
def processCitiesFetch : FetchOutcome → FetchEffect
  | .networkError => .logError
  | .response ok body =>
    if ok then
      match body with
      | .malformed => .logError
      | .json citiesField => .setCities (citiesField.getD [])
    else .logError

/-- A fetch outcome counted as a failure: network error, non-2xx status, or
a body that is not valid JSON. -/
def fetchFailed : FetchOutcome → Bool
  | .networkError => true
  | .response ok body =>
    !ok || (match body with | .malformed => true | .json _ => false)

/-- Applying the single effect of the fetch chain to the Home state:
console.error leaves the state unchanged, setCities replaces the list. -/
def applyFetchEffect (s : HomeState) : FetchEffect → HomeState
  | .logError => s
  | .setCities cs => { s with cities := cs }

/-- The labels of the thumbnails ThumbnailGrid renders: one per entry of the
city list, in order (`cities.map(city => ...)`). -/
def thumbnailGridLabels (cities : List String) : List String :=
  cities.map gridLabel

/-! Routing.  App renders a Router with a single Route whose path is the
wildcard and whose element is Home; the standalone MapView component guards
against a missing route parameter. -/

inductive TopRender where
  | homeView : TopRender
  | mapViewError : TopRender
  | mapViewFrame (city : String) : TopRender
  deriving Repr, DecidableEq

/-- What App renders at a given path: its only Route matches every path and
renders Home.  (The import of the standalone MapView is commented out; no
route mounts it.) -/
def appRender (_path : String) : TopRender :=
  TopRender.homeView

/-- What the standalone MapView component renders given its `city` route
parameter: `if (!city)` — parameter undefined or empty — an inline
"Error: No city parameter provided." element; otherwise the heatmap frame. -/
def mapViewRender (cityParam : Option String) : TopRender :=
  match cityParam with
  | none => TopRender.mapViewError
  | some c => if c = "" then TopRender.mapViewError else TopRender.mapViewFrame c

/-! Lemmas about insertion-order de-duplication. -/

theorem mem_dedupKeepFirstAux (a : String) (l : List String) :
    ∀ seen, a ∈ dedupKeepFirstAux seen l ↔ (a ∈ l ∧ a ∉ seen) := by
  induction l with
  | nil => intro seen; simp [dedupKeepFirstAux]
  | cons x xs ih =>
    intro seen
    by_cases hx : x ∈ seen
    · simp only [dedupKeepFirstAux, if_pos hx, ih seen, List.mem_cons]
      constructor
      · rintro ⟨h1, h2⟩
        exact ⟨Or.inr h1, h2⟩
      · rintro ⟨h1 | h1, h2⟩
        · exact absurd (h1 ▸ hx) h2
        · exact ⟨h1, h2⟩
    · simp only [dedupKeepFirstAux, if_neg hx, List.mem_cons, ih (x :: seen)]
      constructor
      · rintro (rfl | ⟨h1, h2⟩)
        · exact ⟨Or.inl rfl, hx⟩
        · push_neg at h2
          exact ⟨Or.inr h1, h2.2⟩
      · rintro ⟨h1 | h1, h2⟩
        · exact Or.inl h1
        · by_cases hax : a = x
          · exact Or.inl hax
          · refine Or.inr ⟨h1, ?_⟩
            push_neg
            exact ⟨hax, h2⟩

theorem dedupKeepFirstAux_sublist (l : List String) :
    ∀ seen, List.Sublist (dedupKeepFirstAux seen l) l := by
  induction l with
  | nil => intro seen; simp [dedupKeepFirstAux]
  | cons x xs ih =>
    intro seen
    by_cases hx : x ∈ seen
    · simp only [dedupKeepFirstAux, if_pos hx]
      exact (ih seen).cons x
    · simp only [dedupKeepFirstAux, if_neg hx]
      exact (ih (x :: seen)).cons₂ x

theorem nodup_dedupKeepFirstAux (l : List String) :
    ∀ seen, (dedupKeepFirstAux seen l).Nodup := by
  induction l with
  | nil => intro seen; simp [dedupKeepFirstAux]
  | cons x xs ih =>
    intro seen
    by_cases hx : x ∈ seen
    · simp only [dedupKeepFirstAux, if_pos hx]
      exact ih seen
    · simp only [dedupKeepFirstAux, if_neg hx]
      refine List.Nodup.cons ?_ (ih (x :: seen))
      intro hmem
      exact ((mem_dedupKeepFirstAux x xs (x :: seen)).1 hmem).2 (List.mem_cons_self x seen)

/-- The seen-set after the de-duplication pass has consumed a list. -/
def accumSeen (seen : List String) : List String → List String
  | [] => seen
  | x :: xs => if x ∈ seen then accumSeen seen xs else accumSeen (x :: seen) xs

theorem mem_accumSeen (a : String) (l : List String) :
    ∀ seen, a ∈ accumSeen seen l ↔ (a ∈ l ∨ a ∈ seen) := by
  induction l with
  | nil => intro seen; simp [accumSeen]
  | cons x xs ih =>
    intro seen
    by_cases hx : x ∈ seen
    · simp only [accumSeen, if_pos hx, ih seen, List.mem_cons]
      constructor
      · rintro (h | h)
        · exact Or.inl (Or.inr h)
        · exact Or.inr h
      · rintro ((rfl | h) | h)
        · exact Or.inr hx
        · exact Or.inl h
        · exact Or.inr h
    · simp only [accumSeen, if_neg hx, ih (x :: seen), List.mem_cons]
      tauto

theorem dedupKeepFirstAux_append (B : List String) :
    ∀ (A seen : List String),
      dedupKeepFirstAux seen (A ++ B) =
        dedupKeepFirstAux seen A ++ dedupKeepFirstAux (accumSeen seen A) B := by
  intro A
  induction A with
  | nil => intro seen; simp [dedupKeepFirstAux, accumSeen]
  | cons x xs ih =>
    intro seen
    rw [List.cons_append]
    by_cases hx : x ∈ seen
    · simp only [dedupKeepFirstAux, accumSeen, if_pos hx]
      exact ih seen
    · simp only [dedupKeepFirstAux, accumSeen, if_neg hx, List.cons_append]
      rw [ih (x :: seen)]

/-! Claim theorems about the Carousel subset. -/

/-- C1: for every city list and selected city, the subset the Carousel
displays equals the result of concatenating the city list with the
hard-coded fallback list, removing every entry equal to the selected city,
de-duplicating keeping first occurrences, and truncating to the first 8
entries. -/
theorem carouselDisplayed_eq_spec (cities : List String) (selectedCity : String) :
    carouselDisplayed cities selectedCity = carouselSpecSubset cities selectedCity := by
  rfl

/-- C2: for every city list and selected city, the Carousel subset has at
most 8 entries, no duplicates, and never contains the selected city. -/
theorem carouselDisplayed_invariants (cities : List String) (selectedCity : String) :
    (carouselDisplayed cities selectedCity).length ≤ 8 ∧
    (carouselDisplayed cities selectedCity).Nodup ∧
    selectedCity ∉ carouselDisplayed cities selectedCity := by
  simp only [carouselDisplayed]
  refine ⟨?_, ?_, ?_⟩
  · rw [List.length_take]
    exact Nat.min_le_left 8 _
  · exact List.Nodup.sublist (List.take_sublist 8 _)
      (nodup_dedupKeepFirstAux _ [])
  · intro hmem
    have h1 := (List.take_sublist 8 _).subset hmem
    have h2 := ((mem_dedupKeepFirstAux selectedCity _ []).1 h1).1
    have h3 := (List.mem_filter.1 h2).2
    simp at h3

/-- C8: on the concrete input list ["leeds1", "london3"] with selected city
"leeds1", the Carousel subset is exactly ["london3", "leeds2", "london1",
"london2"]: it excludes "leeds1", includes "london3", and the remaining
entries come from the fallback list without duplicating "london3". -/
theorem carouselDisplayed_example :
    carouselDisplayed ["leeds1", "london3"] "leeds1" =
      ["london3", "leeds2", "london1", "london2"] ∧
    "leeds1" ∉ carouselDisplayed ["leeds1", "london3"] "leeds1" ∧
    "london3" ∈ carouselDisplayed ["leeds1", "london3"] "leeds1" ∧
    ∀ c ∈ carouselDisplayed ["leeds1", "london3"] "leeds1",
      c = "london3" ∨ (c ∈ fallbackCities ∧ c ≠ "london3") := by
  refine ⟨by decide, by decide, by decide, by decide⟩

/-- C10: for every city list and selected city, the Carousel subset is an
order-preserving subsequence of the city list followed by the fallback list;
moreover it is a truncation of the de-duplicated filtered city list followed
by entries not occurring in the city list at all, so surviving fetched
identifiers keep their fetched-list positions and precede every
purely-fallback identifier. -/
theorem carouselDisplayed_ordering (cities : List String) (selectedCity : String) :
    List.Sublist (carouselDisplayed cities selectedCity) (cities ++ fallbackCities) ∧
    ∃ rest, (∀ x ∈ rest, x ∉ cities) ∧
      carouselDisplayed cities selectedCity =
        (dedupKeepFirst (cities.filter (fun c => c ≠ selectedCity)) ++ rest).take 8 := by
  constructor
  · exact (List.take_sublist 8 _).trans
      ((dedupKeepFirstAux_sublist _ []).trans (List.filter_sublist _))
  · refine ⟨dedupKeepFirstAux
        (accumSeen [] (cities.filter (fun c => c ≠ selectedCity)))
        (fallbackCities.filter (fun c => c ≠ selectedCity)), ?_, ?_⟩
    · intro x hx
      have h1 := (mem_dedupKeepFirstAux x _ _).1 hx
      have h2 : x ∉ cities.filter (fun c => c ≠ selectedCity) := by
        intro hc
        exact h1.2 ((mem_accumSeen x _ []).2 (Or.inl hc))
      have h3 := (List.mem_filter.1 h1.1).2
      intro hcities
      exact h2 (List.mem_filter.2 ⟨hcities, h3⟩)
    · simp only [carouselDisplayed, dedupKeepFirst, List.filter_append]
      rw [dedupKeepFirstAux_append]

/-! Claim theorems about the Home selection state machine, the fetch, the
metadata fallbacks, and routing. -/

/-- C3: invoking handleSelect with the currently selected city starts the
close (map hidden, isClosing set, selection and route untouched until the
exit animation completes, after which onExitComplete clears the selection
and routes to root); invoking it with a different city selects it, shows
the map, routes to the per-city path, and keeps the outer overlay frame
mounted (it was guarded by selectedCity, which stays non-null) while the
inner content key switches to the new city. -/
theorem handleSelect_toggle (s : HomeState) (c : String) :
    (s.selectedCity = some c →
      (handleSelect s c).isMapVisible = false ∧
      (handleSelect s c).isClosing = true ∧
      (handleSelect s c).selectedCity = s.selectedCity ∧
      (handleSelect s c).route = s.route ∧
      (onExitComplete (handleSelect s c)).selectedCity = none ∧
      (onExitComplete (handleSelect s c)).route = "/") ∧
    (s.selectedCity ≠ some c →
      (handleSelect s c).selectedCity = some c ∧
      (handleSelect s c).isMapVisible = true ∧
      (handleSelect s c).isClosing = false ∧
      (handleSelect s c).route = "/map/" ++ c ∧
      overlayFrameMounted (handleSelect s c) = true ∧
      overlayContentKey (handleSelect s c) = some c) := by
  constructor
  · intro h
    simp [handleSelect, h, onExitComplete]
  · intro h
    simp [handleSelect, h, overlayFrameMounted, overlayContentKey]

/-- Witness for C3 at concrete states: toggling the open city "leeds1"
closed, and switching from "leeds1" to "london3". -/
theorem handleSelect_toggle_witness :
    ((⟨[], some "leeds1", true, false, "/map/leeds1"⟩ : HomeState).selectedCity
       = some "leeds1") ∧
    ((⟨[], some "leeds1", true, false, "/map/leeds1"⟩ : HomeState).selectedCity
       ≠ some "london3") ∧
    (onExitComplete (handleSelect
        ⟨[], some "leeds1", true, false, "/map/leeds1"⟩ "leeds1")).selectedCity
      = none ∧
    (handleSelect ⟨[], some "leeds1", true, false, "/map/leeds1"⟩
        "london3").route = "/map/" ++ "london3" :=
  ⟨rfl, by decide,
   ((handleSelect_toggle ⟨[], some "leeds1", true, false, "/map/leeds1"⟩
       "leeds1").1 rfl).2.2.2.2.1,
   ((handleSelect_toggle ⟨[], some "leeds1", true, false, "/map/leeds1"⟩
       "london3").2 (by decide)).2.2.2.1⟩

/-- C5: every failing outcome of the one-shot cities fetch (network error,
non-2xx status, or malformed body) takes the logError branch, so the state
keeps its initial empty city list and the grid renders zero thumbnails. -/
theorem fetchFailure_leaves_empty (o : FetchOutcome) (h : fetchFailed o = true) :
    processCitiesFetch o = FetchEffect.logError ∧
    (applyFetchEffect (initialHomeState "/") (processCitiesFetch o)).cities = [] ∧
    thumbnailGridLabels
      (applyFetchEffect (initialHomeState "/") (processCitiesFetch o)).cities = [] := by
  cases o with
  | networkError => exact ⟨rfl, rfl, rfl⟩
  | response ok body =>
    cases ok with
    | false => exact ⟨rfl, rfl, rfl⟩
    | true =>
      cases body with
      | malformed => exact ⟨rfl, rfl, rfl⟩
      | json citiesField => simp [fetchFailed] at h

/-- Witness for C5 at the network-error outcome. -/
theorem fetchFailure_leaves_empty_witness :
    fetchFailed FetchOutcome.networkError = true ∧
    processCitiesFetch FetchOutcome.networkError = FetchEffect.logError :=
  ⟨rfl, (fetchFailure_leaves_empty FetchOutcome.networkError rfl).1⟩

/-- C9: every selected city absent from the cityDetails registry makes the
overlay description paragraph render the literal fallback text. -/
theorem overlayDescription_fallback (city : String)
    (h : lookup cityDetails city = none) :
    overlayDescription city = "No detailed information available." := by
  simp [overlayDescription, jsOrElse, h]

/-- Witness for C9 at the unregistered identifier "paris1". -/
theorem overlayDescription_fallback_witness :
    lookup cityDetails "paris1" = none ∧
    overlayDescription "paris1" = "No detailed information available." :=
  ⟨by decide, overlayDescription_fallback "paris1" (by decide)⟩

/-- The C4 claim as stated: every identifier absent from cityNames is shown
as the raw identifier both by the grid label and by the overlay heading. -/
def claimMetadataFallback : Prop :=
  ∀ city, lookup cityNames city = none →
    gridLabel city = city ∧ overlayTitleText city = city

/-- C4 counterexample: the claim fails at the unregistered identifier
"paris1" — the grid label falls back to the raw identifier, but the overlay
heading in Home has no fallback and renders empty. -/
theorem claimMetadataFallback_false : ¬ claimMetadataFallback := by
  intro h
  have h2 := (h "paris1" (by decide)).2
  exact absurd h2 (by decide)

/-- C4 amended: identifiers absent from cityNames are shown raw by the grid
and the Carousel hover labels, while the overlay heading renders empty. -/
theorem metadataFallback_amended (city : String)
    (h : lookup cityNames city = none) :
    gridLabel city = city ∧ carouselLabel city = city ∧
    overlayTitleText city = "" := by
  simp [gridLabel, carouselLabel, overlayTitleText, jsOrElse, h]

/-- Witness for the amended C4 at "paris1". -/
theorem metadataFallback_amended_witness :
    lookup cityNames "paris1" = none ∧
    gridLabel "paris1" = "paris1" ∧ overlayTitleText "paris1" = "" :=
  ⟨by decide, (metadataFallback_amended "paris1" (by decide)).1,
   (metadataFallback_amended "paris1" (by decide)).2.2⟩

/-- The C6 claim as stated, URL-to-state direction: loading the app at the
per-city route yields a state whose selected city is that city. -/
def claimRouteMirrors : Prop :=
  ∀ c, (initialHomeState ("/map/" ++ c)).selectedCity = some c

/-- C6 counterexample: deep links do not restore selection — Home mounts
with selectedCity null at every route, in particular at "/map/leeds1". -/
theorem claimRouteMirrors_false : ¬ claimRouteMirrors := by
  intro h
  exact absurd (h "leeds1") (by decide)

/-- C6 amended: the state-to-URL direction holds — selecting a new city
routes to its per-city path with the selection matching the route, and a
completed close routes to root with the selection cleared — but the initial
state ignores the route: selectedCity is none at every load. -/
theorem routeMirroring_amended (route : String) (s : HomeState) (c : String) :
    (initialHomeState route).selectedCity = none ∧
    (s.selectedCity ≠ some c →
      (handleSelect s c).selectedCity = some c ∧
      (handleSelect s c).route = "/map/" ++ c) ∧
    (s.isClosing = true →
      (onExitComplete s).selectedCity = none ∧
      (onExitComplete s).route = "/") := by
  refine ⟨rfl, ?_, ?_⟩
  · intro h
    simp [handleSelect, h]
  · intro h
    simp [onExitComplete, h]

/-- Witness for the amended C6 at a concrete closing state. -/
theorem routeMirroring_amended_witness :
    ((⟨[], none, false, true, "/map/leeds1"⟩ : HomeState).selectedCity
       ≠ some "leeds1") ∧
    ((⟨[], none, false, true, "/map/leeds1"⟩ : HomeState).isClosing = true) ∧
    (handleSelect (⟨[], none, false, true, "/map/leeds1"⟩ : HomeState)
        "leeds1").route = "/map/" ++ "leeds1" ∧
    (onExitComplete (⟨[], none, false, true, "/map/leeds1"⟩ : HomeState)).route
      = "/" :=
  ⟨by decide, rfl,
   ((routeMirroring_amended "/" ⟨[], none, false, true, "/map/leeds1"⟩
       "leeds1").2.1 (by decide)).2,
   ((routeMirroring_amended "/" ⟨[], none, false, true, "/map/leeds1"⟩
       "leeds1").2.2 rfl).2⟩

/-- C7 counterexample: navigating to the detail route with no identifier
renders the Home view — the router maps every path to Home, so the inline
"no city parameter" error state of the standalone MapView never appears. -/
theorem detailRouteNoParam_false :
    appRender "/map/" = TopRender.homeView ∧
    appRender "/map/" ≠ TopRender.mapViewError :=
  ⟨rfl, by decide⟩

/-- C7 amended: the standalone MapView component does render the inline
"no city parameter" error when its route parameter is missing or empty, but
no route mounts it — App renders Home at every path, so nothing crashes and
that error state is unreachable. -/
theorem detailRouteNoParam_amended :
    mapViewRender none = TopRender.mapViewError ∧
    mapViewRender (some "") = TopRender.mapViewError ∧
    ∀ path, appRender path = TopRender.homeView :=
  ⟨rfl, rfl, fun _ => rfl⟩

end CommuteMap
